import Mathlib

/-!
Formal model of plugin/autotag.py (vim-autotag).

The Python module is embedded shallowly:
* strings stay strings, Python list values become Lean lists;
* the file system is a list of the paths that exist as regular files;
* Python exceptions are modelled with Except / Option PyErr values;
* each definition mirrors one Python function of the source and keeps
  its name where possible.
-/

set_option maxHeartbeats 1000000

/-- Python runtime errors raised by the modelled code paths. -/
inductive PyErr where
  | indexError
  | typeError
  | keyError
deriving DecidableEq, Repr

instance {ε α : Type} [DecidableEq ε] [DecidableEq α] : DecidableEq (Except ε α) := fun
  | .error e, .error e' =>
    if h : e = e' then isTrue (by rw [h]) else isFalse (fun hc => h (Except.error.inj hc))
  | .error _, .ok _ => isFalse (fun hc => Except.noConfusion hc)
  | .ok _, .error _ => isFalse (fun hc => Except.noConfusion hc)
  | .ok a, .ok a' =>
    if h : a = a' then isTrue (by rw [h]) else isFalse (fun hc => h (Except.ok.inj hc))

/-- Characters removed by Python str.strip() with no argument
(the six ASCII whitespace characters; tags files are ASCII). -/
def pyWS (c : Char) : Bool :=
  c = ' ' || c = '\t' || c = '\n' || c = '\r' || c = '\x0b' || c = '\x0c'

/-- Python str.strip(): drop leading and trailing whitespace. -/
def pyStrip (s : String) : String :=
  String.mk (((s.data.dropWhile pyWS).reverse.dropWhile pyWS).reverse)

/-- Helper for splitChar: accumulates the current field (reversed). -/
def splitCharAux (sep : Char) : List Char → List Char → List String
  | [], acc => [String.mk acc.reverse]
  | c :: rest, acc =>
    if c = sep then String.mk acc.reverse :: splitCharAux sep rest []
    else splitCharAux sep rest (c :: acc)

/-- Python s.split(sep) for a one-character separator: empty fields
are kept and the empty string splits to one empty field. -/
def splitChar (sep : Char) (s : String) : List String :=
  splitCharAux sep s.data []

/-- Python line.split for the tab character, as used by good_tag. -/
def splitTab (s : String) : List String :=
  splitChar '\t' s

/-- AutoTag.good_tag (autotag.py lines 219-228).
Python evaluates line[0] first, which raises IndexError on an empty
line; otherwise a header line (first char '!') is kept, and a data
line is kept iff it has more than 3 tab-separated fields and its
field at index 1 is not in the excluded list.  The field access
fields[1] is only reached when len(fields) > 3 (short-circuit and). -/
def good_tag (line : String) (excluded : List String) : Except PyErr Bool :=
  match line.data.head? with
  | none => .error .indexError
  | some c =>
    if c = '!' then .ok true
    else
      let fields := splitTab line
      .ok (decide (fields.length > 3) && !(decide (fields.getD 1 "" ∈ excluded)))

/-- Boolean view of good_tag: the lines a successful strip keeps. -/
def keepLine (excl : List String) (t : String) : Bool :=
  match good_tag t excl with
  | .ok b => b
  | .error _ => false

/-- The body of the fileinput loop in strip_tags: lines are stripped
and filtered one by one; the first exception aborts the loop, leaving
only the lines printed so far in the rewritten file.  Returns the
exception (if any) and the list of printed lines. -/
def stripLoop (excl : List String) : List String → Option PyErr × List String
  | [] => (none, [])
  | l :: rest =>
    match good_tag (pyStrip l) excl with
    | .error e => (some e, [])
    | .ok true => ((stripLoop excl rest).1, pyStrip l :: (stripLoop excl rest).2)
    | .ok false => stripLoop excl rest

/-- File-system events performed by strip_tags, in order. -/
inductive StripEvent where
  | backupCreated
  | wroteLine (line : String)
  | backupDeleted
deriving DecidableEq, Repr

/-- Outcome of one strip_tags call on a tags file. -/
structure StripResult where
  /-- exception propagated out of strip_tags, if any -/
  err : Option PyErr
  /-- lines of the tags file after the call -/
  newContent : List String
  /-- whether the .SAFE backup file still exists after the call -/
  backupExists : Bool
  /-- ordered trace of file-system events of the call -/
  events : List StripEvent
deriving DecidableEq, Repr

/-- AutoTag.strip_tags (autotag.py lines 230-244).
fileinput.FileInput(inplace=True, backup=".SAFE") renames the original
file to tags_file + ".SAFE" and redirects the printed lines into a new
file under the original name; with an explicit backup extension the
backup is kept by fileinput itself.  The try/finally of the source
then unlinks the backup unconditionally - the finally clause runs on
the success path and on the exception path alike (the except IOError
only guards against the unlink itself failing).  So after the call the
backup is always gone and the file holds exactly the printed lines. -/
def strip_tags (content excluded : List String) : StripResult :=
  let r := stripLoop excluded content
  { err := r.1
    newContent := r.2
    backupExists := false
    events := .backupCreated :: (r.2.map StripEvent.wroteLine) ++ [.backupDeleted] }

/-- First character of a string, if any (Python s[0] / s.startswith of one char). -/
def strHead (s : String) : Option Char :=
  s.data.head?

/-- Last character of a string, if any (Python s.endswith of one char). -/
def strLast (s : String) : Option Char :=
  s.data.getLast?

/-- posixpath.join for two components, as the source runs on a POSIX
host (os.sep is '/'): an absolute second component replaces the first;
otherwise a '/' is inserted unless the first part is empty or already
ends with '/'. os.path.join with three arguments folds this binary join. -/
def pyJoin (a b : String) : String :=
  if strHead b = some '/' then b
  else if a = "" ∨ strLast a = some '/' then a ++ b
  else a ++ "/" ++ b

/-- posixpath.dirname: the part of the path up to (and normally
excluding) the last '/'; a head of only slashes is kept verbatim. -/
def pyDirname (p : String) : String :=
  let head := (p.data.reverse.dropWhile (fun c => c ≠ '/')).reverse
  if head.isEmpty ∨ head.all (fun c => c = '/') then String.mk head
  else String.mk (head.reverse.dropWhile (fun c => c = '/')).reverse

/-- posixpath.basename: everything after the last '/'. -/
def pyBasename (p : String) : String :=
  String.mk (p.data.reverse.takeWhile (fun c => c ≠ '/')).reverse

/-- Extension part of posixpath.splitext (the [1] component the source
uses): the suffix of the basename from its last dot, provided some
character of the basename before that dot is not itself a dot
(so a purely dotted leading run, e.g. ".txt", has no extension). -/
def pySplitextExt (p : String) : String :=
  let rb := p.data.reverse.takeWhile (fun c => c ≠ '/')
  let afterDotRev := rb.takeWhile (fun c => c ≠ '.')
  match rb.dropWhile (fun c => c ≠ '.') with
  | [] => ""
  | _ :: beforeRev =>
    if beforeRev.any (fun c => c ≠ '.') then String.mk ('.' :: afterDotRev.reverse)
    else ""

/-- The vim-supplied configuration the AutoTag constructor reads
(GLOBALS_DEFAULTS with vim_global coercions already applied). -/
structure Config where
  excludeSuffixes : String
  ctagsCmd : String
  tagsFile : String
  tagsDir : String
  stopAt : String
deriving DecidableEq, Repr

/-- The defaults of GLOBALS_DEFAULTS; StopAt defaults to the integer 0,
which vim_global stringifies to "0" (so it never equals a directory). -/
def defaultConfig : Config :=
  { excludeSuffixes := "tml.xml.text.txt"
    ctagsCmd := "ctags"
    tagsFile := "tags"
    tagsDir := ""
    stopAt := "0" }

/-- AutoTag.__init__: self.excludesuffix = ["." + s for s in ...split(".")]. -/
def excludeSuffixList (cfg : Config) : List String :=
  (splitChar '.' cfg.excludeSuffixes).map (fun s => "." ++ s)

/-- The file system, as the set of paths that exist as regular files. -/
abbrev Fs := List String

/-- os.path.isfile against the modelled file system. -/
def isFile (fs : Fs) (p : String) : Bool :=
  decide (p ∈ fs)

/-- Effect of Python open(path, 'wb').close(): the path now exists
as a (zero-byte) regular file. -/
def createFile (fs : Fs) (p : String) : Fs :=
  p :: fs

/-- The while loop of AutoTag.find_tag_file (autotag.py lines 170-191),
with the number of remaining iterations made explicit (each iteration
shortens fname or takes a terminating branch, so any fuel of at least
the length of the source path is enough).  Each iteration first moves
fname up by one directory, then:
* if the candidate tags file exists, the pair (fname, tags_file) is
  returned (os.stat always has st_size, so the warning branch that
  would set ret to "" is dead, and the pair assignment wins);
* else if tags_dir is nonempty and equals StopAt, an empty tags file
  is created -- but the pair assigned to ret is immediately
  overwritten by ret = "" on the next source line, so the loop exits
  with "" and the function returns None ("" or None);
* else if fname is exhausted ("" or a root), the loop exits with "". -/
def find_tag_file_loop (cfg : Config) (drive : String) : Nat → Fs → String → Option (String × String) × Fs
  | 0, fs, _ => (none, fs)
  | fuel + 1, fs, fname0 =>
    let fname := pyDirname fname0
    let tags_dir := pyJoin drive fname
    let tags_file := pyJoin (pyJoin tags_dir cfg.tagsDir) cfg.tagsFile
    if isFile fs tags_file then (some (fname, tags_file), fs)
    else if tags_dir ≠ "" ∧ tags_dir = cfg.stopAt then (none, createFile fs tags_file)
    else if fname = "" ∨ fname = "/" ∨ fname = "//" ∨ fname = "\\\\" then (none, fs)
    else find_tag_file_loop cfg drive fuel fs fname

/-- AutoTag.find_tag_file (autotag.py lines 165-192).  On a POSIX host
os.path.splitdrive(source) is ("", source), so the drive is empty. -/
def find_tag_file (cfg : Config) (fuel : Nat) (fs : Fs) (source : String) :
    Option (String × String) × Fs :=
  find_tag_file_loop cfg "" fuel fs source

/-- Association-list lookup with decidable key equality
(Python dict membership and indexing). -/
def lookupKey {α β : Type} [DecidableEq α] : List (α × β) → α → Option β
  | [], _ => none
  | (a, b) :: rest, k => if a = k then some b else lookupKey rest k

/-- defaultdict(list) append: self.tags[key].append(v) creates the key
with [v] if absent, else appends v to the existing list. -/
def tagsAppend {α : Type} [DecidableEq α] :
    List (α × List String) → α → String → List (α × List String)
  | [], k, v => [(k, [v])]
  | (k', vs) :: rest, k, v =>
    if k' = k then (k', vs ++ [v]) :: rest
    else (k', vs) :: tagsAppend rest k v

/-- Per-invocation AutoTag state: self.locks maps a (tags_dir,
tags_file) key to the identity of its multiprocessing.Lock (lock
objects are modelled by the number of the allocation that created
them), and self.tags is the defaultdict(list) of pending sources. -/
structure Runner where
  locks : List ((String × String) × Nat)
  tags : List ((String × String) × List String)
deriving DecidableEq, Repr

/-- AutoTag.__init__ starts every runner with empty lock and tag tables. -/
def newRunner : Runner :=
  { locks := [], tags := [] }

/-- The body of add_source after find_tag_file succeeded (autotag.py
lines 207-217): splitdrive is the identity on POSIX, relative_source
drops the tags_dir length, relative_source[0] raises IndexError when
the remainder is empty, a leading os.sep is dropped, os.sep already
equals the '/' ctags uses so the replace is a no-op, the source is
queued under its key, and a lock for the key is created if absent. -/
def add_source_found (st : Runner) (alloc : Nat) (fs' : Fs) (source : String)
    (tags_dir tags_file : String) : Except PyErr (Runner × Nat × Fs) :=
  let rel0 := String.mk (source.data.drop tags_dir.length)
  match rel0.data.head? with
  | none => .error .indexError
  | some c =>
    let rel := if c = '/' then String.mk (rel0.data.drop 1) else rel0
    let key := (tags_dir, tags_file)
    let withTag : Runner := { st with tags := tagsAppend st.tags key rel }
    if (lookupKey st.locks key).isSome then .ok (withTag, alloc, fs')
    else .ok ({ withTag with locks := st.locks ++ [(key, alloc)] }, alloc + 1, fs')

/-- AutoTag.add_source (autotag.py lines 194-217).  The alloc counter
models the process-wide allocator of mp.Lock identities: each call to
mp.Lock() yields a distinct lock object.  Ignored sources (empty path,
the tags file itself, an excluded suffix) leave everything unchanged;
otherwise the tags file is located and, on success, the source is
queued via add_source_found. -/
def add_source (cfg : Config) (fuel : Nat) (st : Runner) (alloc : Nat) (fs : Fs)
    (source : String) : Except PyErr (Runner × Nat × Fs) :=
  if source = "" then .ok (st, alloc, fs)
  else if pyBasename source = cfg.tagsFile then .ok (st, alloc, fs)
  else if pySplitextExt source ∈ excludeSuffixList cfg then .ok (st, alloc, fs)
  else
    match find_tag_file cfg fuel fs source with
    | (none, fs') => .ok (st, alloc, fs')
    | (some (tags_dir, tags_file), fs') =>
      add_source_found st alloc fs' source tags_dir tags_file

/-- The autotag() entry point (autotag.py lines 282-290), when not
Disabled: every invocation constructs a brand-new AutoTag() -- with
self.locks = {} -- and feeds it the saved file; rebuild_tag_files then
dispatches the workers (modelled separately by update_tags_file). -/
def autotag_invoke (cfg : Config) (fuel : Nat) (alloc : Nat) (fs : Fs) (source : String) :
    Except PyErr (Runner × Nat × Fs) :=
  add_source cfg fuel newRunner alloc fs source

/-- AutoTag.update_tags_file (autotag.py lines 246-272), run per key in
a worker process.  Returns the propagated exception (if any), the file
system afterwards, and the ctags command lines actually executed.
self.locks[key] raises KeyError when the key has no lock.  After the
lock lookup the source builds the adjusted source list and the command
string, then evaluates list(filter(sources, is_file)): Python's filter
requires its second positional argument to be iterable, but is_file is
a function, so every call raises TypeError('function' object is not
iterable) at that line -- the emptiness check, the strip and the ctags
invocation below it are unreachable. -/
def update_tags_file (cfg : Config) (st : Runner) (fs : Fs) (key : String × String)
    (sources : List String) : Option PyErr × Fs × List String :=
  match lookupKey st.locks key with
  | none => (some .keyError, fs, [])
  | some _ =>
    let _sources := if cfg.tagsDir ≠ "" then sources.map (fun s => ".." ++ s) else sources
    let _cmd :=
      if cfg.tagsFile ≠ "" then cfg.ctagsCmd ++ " -f " ++ cfg.tagsFile ++ " -a "
      else cfg.ctagsCmd ++ " -a "
    (some .typeError, fs, [])

theorem headOk_dropWhile {α : Type} (p : α → Bool) (l : List α) :
    ∀ a, (l.dropWhile p).head? = some a → p a = false := by
  induction l with
  | nil => intro a ha; simp [List.dropWhile] at ha
  | cons x xs ih =>
    intro a ha
    by_cases hp : p x
    · rw [List.dropWhile_cons_of_pos hp] at ha
      exact ih a ha
    · rw [List.dropWhile_cons_of_neg hp] at ha
      simp at ha
      subst ha
      exact Bool.eq_false_iff.mpr hp

theorem dropWhile_eq_self {α : Type} (p : α → Bool) (l : List α)
    (h : ∀ a, l.head? = some a → p a = false) : l.dropWhile p = l := by
  cases l with
  | nil => rfl
  | cons x xs =>
    have hx : p x = false := h x rfl
    simp [List.dropWhile, hx]

theorem dropWhile_dropWhile {α : Type} (p : α → Bool) (l : List α) :
    (l.dropWhile p).dropWhile p = l.dropWhile p :=
  dropWhile_eq_self p _ (fun a ha => headOk_dropWhile p l a ha)

theorem head?_append_left {α : Type} {l₁ l₂ : List α} (h : l₁ ≠ []) :
    (l₁ ++ l₂).head? = l₁.head? := by
  cases l₁ with
  | nil => exact absurd rfl h
  | cons x xs => rfl

theorem revHead_dropWhile {α : Type} (p : α → Bool) (l : List α)
    (h : l.dropWhile p ≠ []) :
    (l.dropWhile p).reverse.head? = l.reverse.head? := by
  induction l with
  | nil => exact absurd rfl h
  | cons x xs ih =>
    by_cases hp : p x
    · rw [List.dropWhile_cons_of_pos hp] at h ⊢
      have hxs : xs ≠ [] := by
        intro hnil
        rw [hnil] at h
        exact h rfl
      have hrev : xs.reverse ≠ [] := by
        intro hnil
        exact hxs (List.reverse_eq_nil_iff.mp hnil)
      rw [ih h, List.reverse_cons, head?_append_left hrev]
    · rw [List.dropWhile_cons_of_neg hp]

theorem stripCore_idem {α : Type} (p : α → Bool) (l : List α) :
    ((((((l.dropWhile p).reverse.dropWhile p).reverse).dropWhile p).reverse).dropWhile p).reverse
      = ((l.dropWhile p).reverse.dropWhile p).reverse := by
  have h1 : (((l.dropWhile p).reverse.dropWhile p).reverse).dropWhile p
      = ((l.dropWhile p).reverse.dropWhile p).reverse := by
    apply dropWhile_eq_self
    intro a ha
    by_cases hB : (l.dropWhile p).reverse.dropWhile p = []
    · rw [hB] at ha
      simp at ha
    · rw [revHead_dropWhile p _ hB, List.reverse_reverse] at ha
      exact headOk_dropWhile p l a ha
  rw [h1, List.reverse_reverse, dropWhile_dropWhile]

/-- Python str.strip() is idempotent. -/
theorem pyStrip_idem (s : String) : pyStrip (pyStrip s) = pyStrip s :=
  congrArg String.mk (stripCore_idem pyWS s.data)

theorem good_tag_of_ne_empty (t : String) (excl : List String) (h : t ≠ "") :
    good_tag t excl = .ok (keepLine excl t) := by
  match hd : t.data.head? with
  | none =>
    exfalso
    apply h
    cases ht : t.data with
    | nil => cases t; simp_all
    | cons c cs => rw [ht] at hd; simp at hd
  | some c =>
    rw [keepLine, good_tag, hd]
    by_cases hc : c = '!' <;> simp [hc]

theorem good_tag_error_eq (t : String) (excl : List String) (e : PyErr)
    (h : good_tag t excl = .error e) : e = .indexError := by
  rw [good_tag] at h
  match hd : t.data.head? with
  | none => rw [hd] at h; injection h with h'; exact h'.symm
  | some c =>
    rw [hd] at h
    by_cases hc : c = '!' <;> simp [hc] at h

theorem keepLine_of_ok {t : String} {excl : List String} {b : Bool}
    (h : good_tag t excl = .ok b) : keepLine excl t = b := by
  rw [keepLine, h]

theorem good_tag_head (line : String) (excl : List String) (c : Char)
    (h : line.data.head? = some c) :
    good_tag line excl =
      if c = '!' then .ok true
      else .ok (decide ((splitTab line).length > 3)
                && !(decide ((splitTab line).getD 1 "" ∈ excl))) := by
  rw [good_tag, h]

theorem good_tag_empty_raises (excl : List String) :
    good_tag "" excl = .error .indexError := by
  rw [good_tag, show ("" : String).data.head? = none from by decide]

/-- A successful stripLoop pass keeps exactly the stripped lines the
predicate accepts, in order. -/
theorem stripLoop_ok_eq (excl : List String) (c : List String)
    (h : (stripLoop excl c).1 = none) :
    (stripLoop excl c).2 = (c.map pyStrip).filter (keepLine excl) := by
  induction c with
  | nil => rfl
  | cons l rest ih =>
    match hg : good_tag (pyStrip l) excl with
    | .error e => rw [stripLoop, hg] at h; simp at h
    | .ok true =>
      rw [stripLoop, hg] at h ⊢
      have h' : (stripLoop excl rest).1 = none := h
      show pyStrip l :: (stripLoop excl rest).2
          = (pyStrip l :: rest.map pyStrip).filter (keepLine excl)
      rw [List.filter_cons, keepLine_of_ok hg, ih h']
      simp
    | .ok false =>
      rw [stripLoop, hg] at h ⊢
      have h' : (stripLoop excl rest).1 = none := h
      show (stripLoop excl rest).2
          = (pyStrip l :: rest.map pyStrip).filter (keepLine excl)
      rw [List.filter_cons, keepLine_of_ok hg, ih h']
      simp

/-- Every line a stripLoop pass emits is already stripped and accepted
by good_tag. -/
theorem stripLoop_mem (excl : List String) (c : List String) :
    ∀ t ∈ (stripLoop excl c).2, pyStrip t = t ∧ good_tag t excl = .ok true := by
  induction c with
  | nil => intro t ht; simp [stripLoop] at ht
  | cons l rest ih =>
    intro t ht
    match hg : good_tag (pyStrip l) excl with
    | .error e => rw [stripLoop, hg] at ht; simp at ht
    | .ok true =>
      rw [stripLoop, hg] at ht
      rcases List.mem_cons.mp ht with h1 | h1
      · subst h1
        exact ⟨pyStrip_idem l, hg⟩
      · exact ih t h1
    | .ok false =>
      rw [stripLoop, hg] at ht
      exact ih t ht

/-- stripLoop leaves a list of stripped, accepted lines untouched and
raises nothing on it. -/
theorem stripLoop_fixed (excl : List String) (m : List String)
    (h : ∀ t ∈ m, pyStrip t = t ∧ good_tag t excl = .ok true) :
    stripLoop excl m = (none, m) := by
  induction m with
  | nil => rfl
  | cons t rest ih =>
    obtain ⟨hs, hg⟩ := h t (List.mem_cons_self t rest)
    have hg' : good_tag (pyStrip t) excl = .ok true := by rw [hs]; exact hg
    rw [stripLoop, hg', ih (fun u hu => h u (List.mem_cons_of_mem t hu)), hs]

/-- If some line of the file strips to the empty string, the pass
raises IndexError (only the empty line can make good_tag raise, and it
always does). -/
theorem stripLoop_blank (excl : List String) (c : List String) (l : String)
    (hmem : l ∈ c) (hblank : pyStrip l = "") :
    (stripLoop excl c).1 = some .indexError := by
  induction c with
  | nil => simp at hmem
  | cons x rest ih =>
    rcases List.mem_cons.mp hmem with h1 | h1
    · subst h1
      rw [stripLoop, hblank]
      rfl
    · match hg : good_tag (pyStrip x) excl with
      | .error e =>
        rw [stripLoop, hg]
        rw [good_tag_error_eq _ _ _ hg]
      | .ok true => rw [stripLoop, hg]; exact ih h1
      | .ok false => rw [stripLoop, hg]; exact ih h1

theorem getLast?_append_single {α : Type} (l : List α) (a : α) :
    (l ++ [a]).getLast? = some a := by
  induction l with
  | nil => rfl
  | cons x xs ih =>
    rw [List.cons_append]
    cases hx : xs ++ [a] with
    | nil => exact absurd hx (by simp)
    | cons y ys =>
      rw [List.getLast?_cons_cons, ← hx, ih]

/-- A header marker survives str.strip(): if the first character of a
line is a non-whitespace character, the stripped line starts with it. -/
theorem pyStrip_head (s : String) (c : Char) (hc : pyWS c = false)
    (h : s.data.head? = some c) : (pyStrip s).data.head? = some c := by
  obtain ⟨rest, hdata⟩ : ∃ rest, s.data = c :: rest := by
    cases hd : s.data with
    | nil => rw [hd] at h; simp at h
    | cons x xs =>
      rw [hd] at h
      simp at h
      exact ⟨xs, by rw [h]⟩
  show (((s.data.dropWhile pyWS).reverse.dropWhile pyWS).reverse).head? = some c
  rw [hdata, List.dropWhile_cons_of_neg (by rw [hc]; exact Bool.false_ne_true)]
  have hBne : (c :: rest).reverse.dropWhile pyWS ≠ [] := by
    intro hnil
    have := List.dropWhile_eq_nil_iff.mp hnil c (by simp)
    rw [hc] at this
    exact Bool.false_ne_true this
  rw [revHead_dropWhile pyWS _ hBne, List.reverse_reverse]
  rfl

/-- Claim C1, counterexample.  Stripping a tags file that contains a
blank line: the filtering raises IndexError after the backup was
created and some lines were rewritten, yet the finally clause has
already deleted the backup, and the surviving file differs from the
original -- the original content is not recoverable from the backup. -/
theorem strip_tags_failure_loses_backup :
    (strip_tags ["!h", "", "!h2"] []).err = some .indexError
    ∧ (strip_tags ["!h", "", "!h2"] []).backupExists = false
    ∧ (strip_tags ["!h", "", "!h2"] []).newContent ≠ ["!h", "", "!h2"] := by decide

/-- Claim C1, amended.  strip_tags creates the backup first (before
any write) and the backup is deleted by the time the call returns --
on the success path and on the failure path alike, because the
deletion sits in a finally clause. -/
theorem strip_tags_backup_lifecycle (c excl : List String) :
    (strip_tags c excl).backupExists = false
    ∧ (strip_tags c excl).events.head? = some .backupCreated
    ∧ (strip_tags c excl).events.getLast? = some .backupDeleted := by
  refine ⟨rfl, rfl, ?_⟩
  show ((StripEvent.backupCreated ::
      (stripLoop excl c).2.map StripEvent.wroteLine) ++ [StripEvent.backupDeleted]).getLast?
      = some .backupDeleted
  exact getLast?_append_single _ _

/-- Claim C2, counterexample.  Over the full domain of contents the
claim fails: a blank line aborts the rewrite, so a header line that
the original file had after the blank line is missing afterwards. -/
theorem strip_tags_drops_header_after_blank :
    ("!h2").data.head? = some '!'
    ∧ "!h2" ∈ (["!h1", "", "!h2"] : List String)
    ∧ pyStrip "!h2" = "!h2"
    ∧ "!h2" ∉ (strip_tags ["!h1", "", "!h2"] []).newContent := by decide

/-- Claim C2, amended: whenever strip_tags completes without raising
(equivalently, no line of the file is blank after trimming), the new
content is exactly the stripped lines good_tag accepts, in original
relative order -- so every header line and every non-excluded data
line survives, and no surviving data line has its field 1 in the
excluded set. -/
theorem strip_tags_filters_exactly (c excl : List String)
    (h : (strip_tags c excl).err = none) :
    (strip_tags c excl).newContent = (c.map pyStrip).filter (keepLine excl)
    ∧ ∀ t ∈ (strip_tags c excl).newContent, t.data.head? ≠ some '!' →
        (splitTab t).length > 3 ∧ (splitTab t).getD 1 "" ∉ excl := by
  have h1 : (stripLoop excl c).1 = none := h
  constructor
  · exact stripLoop_ok_eq excl c h1
  · intro t ht hhdr
    obtain ⟨hs, hg⟩ := stripLoop_mem excl c t ht
    match hd : t.data.head? with
    | none =>
      rw [good_tag, hd] at hg
      exact absurd hg (by simp)
    | some ch =>
      have hch : ch ≠ '!' := by
        intro he
        rw [he] at hd
        exact hhdr hd
      rw [good_tag_head t excl ch hd, if_neg hch] at hg
      have hg' := Except.ok.inj hg
      simpa using hg'

/-- Witness for strip_tags_filters_exactly at a concrete tags file. -/
theorem strip_tags_filters_exactly_witness :
    (strip_tags ["!h", "a\tsrc/x.c\tp\tf", "b\tsrc/y.c\tp\tf"] ["src/x.c"]).newContent
      = ((["!h", "a\tsrc/x.c\tp\tf", "b\tsrc/y.c\tp\tf"].map pyStrip).filter
          (keepLine ["src/x.c"])) :=
  (strip_tags_filters_exactly ["!h", "a\tsrc/x.c\tp\tf", "b\tsrc/y.c\tp\tf"] ["src/x.c"]
    (by decide)).1

/-- Claim C6.  Every non-empty line whose first character is the
header marker is kept by good_tag for every excluded set, and (when a
strip pass completes) its stripped form is in the rewritten file. -/
theorem good_tag_keeps_header_lines (line : String) (excl : List String)
    (h : line.data.head? = some '!') :
    good_tag line excl = .ok true
    ∧ ∀ c, (strip_tags c excl).err = none → line ∈ c →
        pyStrip line ∈ (strip_tags c excl).newContent := by
  have hok : good_tag line excl = .ok true := by
    rw [good_tag_head line excl '!' h, if_pos rfl]
  refine ⟨hok, ?_⟩
  intro c hc hmem
  have h1 : (stripLoop excl c).1 = none := hc
  show pyStrip line ∈ (stripLoop excl c).2
  rw [stripLoop_ok_eq excl c h1]
  apply List.mem_filter.mpr
  refine ⟨List.mem_map_of_mem pyStrip hmem, ?_⟩
  have hh : (pyStrip line).data.head? = some '!' := pyStrip_head line '!' (by decide) h
  have hok' : good_tag (pyStrip line) excl = .ok true := by
    rw [good_tag_head (pyStrip line) excl '!' hh, if_pos rfl]
  rw [keepLine_of_ok hok']

/-- Witness for good_tag_keeps_header_lines on a concrete header. -/
theorem good_tag_keeps_header_lines_witness :
    good_tag "!x" [] = .ok true ∧ pyStrip "!x" ∈ (strip_tags ["!x"] []).newContent := by
  have h := good_tag_keeps_header_lines "!x" [] (by decide)
  exact ⟨h.1, h.2 ["!x"] (by decide) (by decide)⟩

/-- Claim C7, counterexample.  The empty line -- a non-header line
that splits into one (hence at most 3) tab field -- is not rejected by
good_tag: the predicate raises IndexError instead of returning False. -/
theorem good_tag_empty_line_not_rejected :
    good_tag "" [] = .error .indexError ∧ good_tag "" [] ≠ .ok false := by decide

/-- Claim C7, amended: on every NON-EMPTY non-header line, good_tag
returns exactly (more than 3 tab fields AND field 1 not excluded). -/
theorem good_tag_data_line_characterization (line : String) (excl : List String) (c0 : Char)
    (h : line.data.head? = some c0) (hne : c0 ≠ '!') :
    good_tag line excl
      = .ok (decide ((splitTab line).length > 3)
              && !(decide ((splitTab line).getD 1 "" ∈ excl))) := by
  rw [good_tag_head line excl c0 h, if_neg hne]

/-- Witness for good_tag_data_line_characterization on a 3-field line. -/
theorem good_tag_data_line_characterization_witness :
    good_tag "a\tf.c\tp" ["f.c"]
      = .ok (decide ((splitTab "a\tf.c\tp").length > 3)
              && !(decide ((splitTab "a\tf.c\tp").getD 1 "" ∈ ["f.c"]))) :=
  good_tag_data_line_characterization "a\tf.c\tp" ["f.c"] 'a' (by decide) (by decide)

/-- Claim C8.  Re-running strip_tags with the same excluded set on the
file a previous strip_tags left behind (even one aborted by an
exception) rewrites it to identical content and raises nothing. -/
theorem strip_tags_idempotent (c excl : List String) :
    (strip_tags (strip_tags c excl).newContent excl).newContent
        = (strip_tags c excl).newContent
    ∧ (strip_tags (strip_tags c excl).newContent excl).err = none := by
  have hfix := stripLoop_fixed excl (stripLoop excl c).2 (stripLoop_mem excl c)
  constructor
  · show (stripLoop excl (stripLoop excl c).2).2 = (stripLoop excl c).2
    rw [hfix]
  · show (stripLoop excl (stripLoop excl c).2).1 = none
    rw [hfix]

/-- Claim C10.  good_tag raises IndexError on the empty string, so a
strip over a tags file containing a line that is blank after trimming
propagates IndexError instead of skipping or keeping that line. -/
theorem good_tag_blank_line_raises (content excl : List String) (l : String)
    (hmem : l ∈ content) (hblank : pyStrip l = "") :
    good_tag (pyStrip l) excl = .error .indexError
    ∧ (strip_tags content excl).err = some .indexError := by
  constructor
  · rw [hblank]
    exact good_tag_empty_raises excl
  · exact stripLoop_blank excl content l hmem hblank

/-- Witness for good_tag_blank_line_raises on a whitespace-only line. -/
theorem good_tag_blank_line_raises_witness :
    good_tag (pyStrip " ") [] = .error .indexError
    ∧ (strip_tags ["x\ty", " "] []).err = some .indexError :=
  good_tag_blank_line_raises ["x\ty", " "] [] " " (by decide) (by decide)

theorem lookupKey_append_some {α β : Type} [DecidableEq α] {l₁ : List (α × β)}
    (l₂ : List (α × β)) {k : α} {v : β} (h : lookupKey l₁ k = some v) :
    lookupKey (l₁ ++ l₂) k = some v := by
  induction l₁ with
  | nil => simp [lookupKey] at h
  | cons x rest ih =>
    obtain ⟨a, b⟩ := x
    rw [List.cons_append]
    rw [lookupKey] at h ⊢
    by_cases ha : a = k
    · rw [if_pos ha] at h ⊢
      exact h
    · rw [if_neg ha] at h ⊢
      exact ih h

theorem lookupKey_append_none {α β : Type} [DecidableEq α] {l₁ : List (α × β)}
    (l₂ : List (α × β)) {k : α} (h : lookupKey l₁ k = none) :
    lookupKey (l₁ ++ l₂) k = lookupKey l₂ k := by
  induction l₁ with
  | nil => rfl
  | cons x rest ih =>
    obtain ⟨a, b⟩ := x
    rw [lookupKey] at h
    rw [List.cons_append, lookupKey]
    by_cases ha : a = k
    · rw [if_pos ha] at h
      exact absurd h (by simp)
    · rw [if_neg ha] at h ⊢
      exact ih h

theorem lookupKey_tagsAppend_isSome {α : Type} [DecidableEq α]
    (m : List (α × List String)) (key k : α) (v : String)
    (h : (lookupKey (tagsAppend m key v) k).isSome = true) :
    k = key ∨ (lookupKey m k).isSome = true := by
  induction m with
  | nil =>
    rw [tagsAppend, lookupKey] at h
    by_cases hk : key = k
    · exact Or.inl hk.symm
    · rw [if_neg hk] at h
      simp [lookupKey] at h
  | cons x rest ih =>
    obtain ⟨a, b⟩ := x
    rw [tagsAppend] at h
    by_cases ha : a = key
    · rw [if_pos ha] at h
      rw [lookupKey] at h
      by_cases hak : a = k
      · right
        rw [lookupKey, if_pos hak]
        rfl
      · rw [if_neg hak] at h
        right
        rw [lookupKey, if_neg hak]
        exact h
    · rw [if_neg ha] at h
      rw [lookupKey] at h
      by_cases hak : a = k
      · right
        rw [lookupKey, if_pos hak]
        rfl
      · rw [if_neg hak] at h
        rcases ih h with h1 | h1
        · exact Or.inl h1
        · right
          rw [lookupKey, if_neg hak]
          exact h1

/-- Claim C3 (code bug).  With no tags file anywhere on disk and
StopAt configured to /home/user, the ascent from /home/user/proj/a.c
reaches the boundary: the code creates the empty tags file there, but
the (directory, tags-file) pair assigned to ret on line 187 is dead --
line 188 overwrites it with "" -- so find_tag_file reports None (not
found) even though creation succeeded. -/
theorem find_tag_file_boundary_returns_none :
    find_tag_file { defaultConfig with stopAt := "/home/user" } 5 [] "/home/user/proj/a.c"
      = (none, ["/home/user/tags"]) := by decide

/-- Claim C4 (code bug).  update_tags_file on a realistic input -- the
key has a lock, its source file /h/p/a.c exists on disk -- raises
TypeError at list(filter(sources, is_file)) because the arguments of
filter are inverted, so no source filtering happens, no ctags
subprocess is started, and the tags file is never rewritten. -/
theorem update_tags_file_always_type_error :
    update_tags_file defaultConfig
      { locks := [(("/h/p", "/h/p/tags"), 0)], tags := [(("/h/p", "/h/p/tags"), ["a.c"])] }
      ["/h/p/tags", "/h/p/a.c"] ("/h/p", "/h/p/tags") ["a.c"]
      = (some .typeError, ["/h/p/tags", "/h/p/a.c"], []) := by decide

/-- Claim C5, counterexample.  Two invocations of the autotag() entry
point on the same saved file: each builds a fresh AutoTag whose lock
table starts empty, so the same key (/h/p, /h/p/tags) is paired with a
newly allocated mp.Lock in each invocation (identities 0 and 1) -- the
two invocations do not use the same lock. -/
theorem autotag_fresh_locks_each_invocation :
    autotag_invoke defaultConfig 5 0 ["/h/p/tags"] "/h/p/a.c"
      = .ok ({ locks := [(("/h/p", "/h/p/tags"), 0)],
               tags := [(("/h/p", "/h/p/tags"), ["a.c"])] }, 1, ["/h/p/tags"])
    ∧ autotag_invoke defaultConfig 5 1 ["/h/p/tags"] "/h/p/a.c"
      = .ok ({ locks := [(("/h/p", "/h/p/tags"), 1)],
               tags := [(("/h/p", "/h/p/tags"), ["a.c"])] }, 2, ["/h/p/tags"])
    ∧ lookupKey [(("/h/p", "/h/p/tags"), 0)] ("/h/p", "/h/p/tags")
        ≠ lookupKey [(("/h/p", "/h/p/tags"), 1)] ("/h/p", "/h/p/tags") :=
  ⟨by decide, by decide, by decide⟩

theorem add_source_found_lock_table
    (st : Runner) (alloc : Nat) (fs' : Fs) (source : String) (tags_dir tags_file : String)
    (st' : Runner) (alloc' : Nat) (fs₂ : Fs)
    (h : add_source_found st alloc fs' source tags_dir tags_file = .ok (st', alloc', fs₂))
    (hinv : ∀ k, (lookupKey st.tags k).isSome = true → (lookupKey st.locks k).isSome = true) :
    (∀ k id, lookupKey st.locks k = some id → lookupKey st'.locks k = some id)
    ∧ (∀ k, (lookupKey st'.tags k).isSome = true → (lookupKey st'.locks k).isSome = true) := by
  simp only [add_source_found] at h
  split at h
  · exact Except.noConfusion h
  · split at h
    · rename_i hlock
      have h2 := Except.ok.inj h
      simp only [Prod.mk.injEq] at h2
      obtain ⟨rfl, -, -⟩ := h2
      refine ⟨fun k id hk => hk, fun k hk => ?_⟩
      rcases lookupKey_tagsAppend_isSome st.tags (tags_dir, tags_file) k _ hk with rfl | hks
      · exact hlock
      · exact hinv k hks
    · rename_i hlock
      have h2 := Except.ok.inj h
      simp only [Prod.mk.injEq] at h2
      obtain ⟨rfl, -, -⟩ := h2
      have hnone : lookupKey st.locks (tags_dir, tags_file) = none := by
        cases hcase : lookupKey st.locks (tags_dir, tags_file) with
        | none => rfl
        | some v =>
          rw [hcase] at hlock
          exact absurd rfl hlock
      constructor
      · intro k id hk
        exact lookupKey_append_some _ hk
      · intro k hk
        rcases lookupKey_tagsAppend_isSome st.tags (tags_dir, tags_file) k _ hk with rfl | hks
        · rw [lookupKey_append_none _ hnone, lookupKey, if_pos rfl]
          rfl
        · obtain ⟨v, hv⟩ := Option.isSome_iff_exists.mp (hinv k hks)
          rw [lookupKey_append_some _ hv]
          rfl

/-- Claim C5, amended: within one runner (one AutoTag instance),
add_source never removes or replaces an existing lock -- an existing
key keeps the very lock object it got when first seen -- and after the
call every key that has pending entries has a lock. -/
theorem add_source_lock_table_lazy_persistent
    (cfg : Config) (fuel : Nat) (st : Runner) (alloc : Nat) (fs : Fs) (source : String)
    (st' : Runner) (alloc' : Nat) (fs' : Fs)
    (h : add_source cfg fuel st alloc fs source = .ok (st', alloc', fs'))
    (hinv : ∀ k, (lookupKey st.tags k).isSome = true → (lookupKey st.locks k).isSome = true) :
    (∀ k id, lookupKey st.locks k = some id → lookupKey st'.locks k = some id)
    ∧ (∀ k, (lookupKey st'.tags k).isSome = true → (lookupKey st'.locks k).isSome = true) := by
  simp only [add_source] at h
  split at h
  · have h2 := Except.ok.inj h
    simp only [Prod.mk.injEq] at h2
    obtain ⟨rfl, -, -⟩ := h2
    exact ⟨fun k id hk => hk, hinv⟩
  · split at h
    · have h2 := Except.ok.inj h
      simp only [Prod.mk.injEq] at h2
      obtain ⟨rfl, -, -⟩ := h2
      exact ⟨fun k id hk => hk, hinv⟩
    · split at h
      · have h2 := Except.ok.inj h
        simp only [Prod.mk.injEq] at h2
        obtain ⟨rfl, -, -⟩ := h2
        exact ⟨fun k id hk => hk, hinv⟩
      · split at h
        · have h2 := Except.ok.inj h
          simp only [Prod.mk.injEq] at h2
          obtain ⟨rfl, -, -⟩ := h2
          exact ⟨fun k id hk => hk, hinv⟩
        · rename_i td tf fs₂ heqfind
          exact add_source_found_lock_table st alloc fs₂ source td tf st' alloc' fs' h hinv

/-- Witness for add_source_lock_table_lazy_persistent: starting from a
fresh runner, after one successful add_source the resolved key has a
lock. -/
theorem add_source_lock_table_lazy_persistent_witness :
    (lookupKey
      (Runner.mk [(("/h/p", "/h/p/tags"), 0)] [(("/h/p", "/h/p/tags"), ["a.c"])]).locks
      ("/h/p", "/h/p/tags")).isSome = true := by
  have h := add_source_lock_table_lazy_persistent defaultConfig 5 newRunner 0 ["/h/p/tags"]
      "/h/p/a.c"
      (Runner.mk [(("/h/p", "/h/p/tags"), 0)] [(("/h/p", "/h/p/tags"), ["a.c"])]) 1
      ["/h/p/tags"] (by decide)
      (by intro k hk; simp [newRunner, lookupKey] at hk)
  exact h.2 ("/h/p", "/h/p/tags") (by decide)

/-- Claim C9.  add_source is a complete no-op -- runner state, lock
allocator and file system all unchanged -- when the reported path is
empty, or its basename equals the configured tags-file name, or its
extension is in the configured exclusion set. -/
theorem add_source_ignores_excluded (cfg : Config) (fuel : Nat) (st : Runner) (alloc : Nat)
    (fs : Fs) (source : String)
    (h : source = "" ∨ pyBasename source = cfg.tagsFile
        ∨ pySplitextExt source ∈ excludeSuffixList cfg) :
    add_source cfg fuel st alloc fs source = .ok (st, alloc, fs) := by
  by_cases h1 : source = ""
  · rw [add_source, if_pos h1]
  · by_cases h2 : pyBasename source = cfg.tagsFile
    · rw [add_source, if_neg h1, if_pos h2]
    · by_cases h3 : pySplitextExt source ∈ excludeSuffixList cfg
      · rw [add_source, if_neg h1, if_neg h2, if_pos h3]
      · rcases h with h | h | h
        · exact absurd h h1
        · exact absurd h h2
        · exact absurd h h3

/-- Witness for add_source_ignores_excluded: notes.txt with the
default ExcludeSuffixes (which contains txt) is ignored. -/
theorem add_source_ignores_excluded_witness :
    add_source defaultConfig 5 newRunner 0 [] "notes.txt" = .ok (newRunner, 0, []) :=
  add_source_ignores_excluded defaultConfig 5 newRunner 0 [] "notes.txt"
    (Or.inr (Or.inr (by decide)))

example : splitTab "a\tb\tc" = ["a", "b", "c"] := by decide
example : splitTab "" = [""] := by decide
example : good_tag "!x" ["a"] = .ok true := by decide
example : good_tag "" [] = .error .indexError := by decide
example : good_tag "a\tf.c\tp\tk" ["f.c"] = .ok false := by decide
example : good_tag "a\tf.c\tp\tk" ["g.c"] = .ok true := by decide
example : good_tag "a\tf.c\tp" [] = .ok false := by decide
example : pyStrip "  a\tb \t" = "a\tb" := by decide
example :
    (strip_tags ["!h", "", "!h2"] []).newContent = ["!h"] := by decide
example :
    (strip_tags ["!h", "", "!h2"] []).err = some .indexError := by decide
example : pyDirname "/home/user/proj/a.c" = "/home/user/proj" := by decide
example : pyDirname "/a" = "/" := by decide
example : pyDirname "a" = "" := by decide
example : pyDirname "/" = "/" := by decide
example : pyJoin "" "/home" = "/home" := by decide
example : pyJoin "/h/p" "" = "/h/p/" := by decide
example : pyJoin "/h/p/" "tags" = "/h/p/tags" := by decide
example : pyBasename "/h/p/a.c" = "a.c" := by decide
example : pyBasename "notes.txt" = "notes.txt" := by decide
example : pySplitextExt "notes.txt" = ".txt" := by decide
example : pySplitextExt ".txt" = "" := by decide
example : pySplitextExt "/d/a.b.c" = ".c" := by decide
example : pySplitextExt "/d.x/ab" = "" := by decide
example : excludeSuffixList defaultConfig = [".tml", ".xml", ".text", ".txt"] := by decide
example :
    find_tag_file { defaultConfig with stopAt := "/home/user" } 5 [] "/home/user/proj/a.c"
      = (none, ["/home/user/tags"]) := by decide
example :
    find_tag_file defaultConfig 5 ["/h/p/tags"] "/h/p/a.c"
      = (some ("/h/p", "/h/p/tags"), ["/h/p/tags"]) := by decide
example :
    autotag_invoke defaultConfig 5 0 ["/h/p/tags"] "/h/p/a.c"
      = .ok ({ locks := [(("/h/p", "/h/p/tags"), 0)],
               tags := [(("/h/p", "/h/p/tags"), ["a.c"])] }, 1, ["/h/p/tags"]) := by decide
example :
    update_tags_file defaultConfig
      { locks := [(("/h/p", "/h/p/tags"), 0)], tags := [(("/h/p", "/h/p/tags"), ["a.c"])] }
      ["/h/p/tags", "/h/p/a.c"] ("/h/p", "/h/p/tags") ["a.c"]
      = (some .typeError, ["/h/p/tags", "/h/p/a.c"], []) := by decide
example :
    add_source defaultConfig 5 newRunner 0 [] "notes.txt" = .ok (newRunner, 0, []) := by decide
